import Mathlib

/-!
Shallow embedding of `api/main.py` of the SusScanner API façade.

The program is an HTTP gateway that lazily resolves an external "scanner"
module, invokes a function-style or class-style entrypoint with a username,
and normalizes the result to a JSON mapping.  We embed:

  * the Python values the normalizer `_to_json` can observe (`PyVal`),
  * module attributes that may be stored in the global `_analyze_fn`
    (`PyAttr`, carrying Python truthiness for the `or` chain),
  * the class-style contract (`ScannerCls`, `ScannerInstance`),
  * the import environment (`ImportEnv`, modelling `importlib.import_module`
    as a map from module name to module-or-exception),
  * the module-level mutable globals (`ScannerGlobals`), and
  * the request handler `scan` as an explicit state-passing function.

Exceptions are modelled as `Except String` carrying the exception text
(`str(e)` of the Python exception).  `HTTPException(status, detail)` raised
by the handler is the `ScanError.http` constructor; an exception escaping
the handler uncaught (possible only from `_to_json`, which is called outside
the `try` blocks) is `ScanError.uncaught`.
-/

/-- Python `s.strip()`: drop whitespace from both ends.  Defined over the
character list so that it evaluates inside the kernel. -/
def py_strip (s : String) : String :=
  ((s.data.dropWhile Char.isWhitespace).reverse.dropWhile Char.isWhitespace).reverse.asString

/-- Python `s.startswith("_")`. -/
def starts_underscore (s : String) : Bool :=
  match s.data with
  | c :: _ => c = '_'
  | [] => false

/-- Helper for `split_commas`: the accumulator holds the current piece
reversed. -/
def split_commas_aux : List Char → List Char → List String
  | [], acc => [acc.reverse.asString]
  | c :: rest, acc =>
      if c = ',' then acc.reverse.asString :: split_commas_aux rest []
      else split_commas_aux rest (c :: acc)

/-- Python `s.split(",")`: like Python, `"".split(",")` is `[""]` and
separators at the ends produce empty pieces. -/
def split_commas (s : String) : List String := split_commas_aux s.data []

/-- A Python value as observed by `_to_json` (main.py lines 64-71):
either a plain `dict`, a bare value with only a textual representation
(`prim`, e.g. an `int` or `str`: no `model_dump`, no `__dict__`), or an
object described by the three observations `_to_json` makes of it:
whether it has a `model_dump` method and what calling it does (returns a
value or raises, `Except.error` carrying the exception text), whether it
has a `__dict__` and what `vars(obj)` holds, and its `str()` form. -/
inductive PyVal where
  | prim (text : String)
  | dict (entries : List (String × PyVal))
  | obj (modelDump : Option (Except String PyVal))
        (attrs : Option (List (String × PyVal)))
        (text : String)

/-- `_to_json` (main.py lines 64-71): pass a `dict` through unchanged;
else return `obj.model_dump()` if the attribute exists (propagating any
exception the call raises); else the non-underscore entries of
`vars(obj)`; else `\x7b"result": str(obj)\x7d`. -/
def to_json : PyVal → Except String PyVal
  | .prim t => .ok (.dict [(("result"), .prim t)])
  | .dict es => .ok (.dict es)
  | .obj (some (.ok v)) _ _ => .ok v
  | .obj (some (.error e)) _ _ => .error e
  | .obj none (some attrs) _ =>
      .ok (.dict (attrs.filter (fun kv => !(starts_underscore kv.1))))
  | .obj none none t => .ok (.dict [(("result"), .prim t)])

/-- An instance returned by `_ScannerCls(lookback_months=3)`: the two
method names the handler probes with `hasattr` (main.py lines 96-99).
`none` means `hasattr` is false; `some m` means the attribute exists and
calling it with the username returns a value or raises. -/
structure ScannerInstance where
  analyze_user : Option (String → Except String PyVal)
  analyze_player : Option (String → Except String PyVal)

/-- The value stored in the global `_ScannerCls` when not `None`:
calling it with the `lookback_months` argument either returns an instance
or raises (this also covers a non-class truthy attribute, whose call
raises `TypeError`). -/
structure ScannerCls where
  construct : Int → Except String ScannerInstance

/-- A module attribute value that `getattr(mod, "analyze_user"/"analyze_player", None)`
can produce when the attribute exists: a callable (always truthy in
Python), or some other value with an explicit truthiness, whose call
raises with the given message. -/
inductive PyAttr where
  | callable (f : String → Except String PyVal)
  | value (truthy : Bool) (callErr : String)

/-- Python truthiness of a module attribute (functions and classes are
always truthy). -/
def truthy_attr : PyAttr → Bool
  | .callable _ => true
  | .value t _ => t

/-- Calling a stored attribute with the username: `_analyze_fn(username)`
(main.py line 87).  Calling a non-callable raises `TypeError`. -/
def call_attr : PyAttr → String → Except String PyVal
  | .callable f, u => f u
  | .value _ e, _ => .error e

/-- Python `a or b` on the results of the two `getattr(..., None)` calls
(main.py line 58): the left operand if it is truthy, else the right
operand unchanged (`getattr` returning `None` is the `none` case). -/
def py_or_attr (a b : Option PyAttr) : Option PyAttr :=
  match a with
  | some x => if truthy_attr x then some x else b
  | none => b

/-- A loaded scanner module, as observed by `_load_scanner_once`
(main.py lines 56-58): the three attributes it probes with `getattr`. -/
structure PyModule where
  SusScanner : Option ScannerCls
  analyze_user : Option PyAttr
  analyze_player : Option PyAttr

/-- The import environment: `importlib.import_module` as a map from module
name to the loaded module or the import-time exception text.  Fixed within
one call, but may differ between requests (the filesystem can change). -/
def ImportEnv : Type := String → Except String PyModule

/-- `_import_first` (main.py lines 41-50), with the running `last_err`
made explicit: try each name in order, return the first module that
loads; when all fail re-raise the last error; with no names at all raise
`ImportError("no module names provided")`. -/
def first_import_aux (env : ImportEnv) : List String → Option String → Except String PyModule
  | [], none => .error ("no module names provided")
  | [], some e => .error e
  | n :: rest, _ =>
      match env n with
      | .ok m => .ok m
      | .error e => first_import_aux env rest (some e)

/-- `_import_first(*names)` with `last_err` initially `None`. -/
def first_import (env : ImportEnv) (names : List String) : Except String PyModule :=
  first_import_aux env names none

/-- The fixed candidate list of main.py line 56. -/
def scanner_module_names : List String :=
  [("scanner"), ("services.scanner"), ("api.scanner")]

/-- The module-level globals `_ScannerCls`, `_analyze_fn`, `_loaded`
(main.py lines 37-39). -/
structure ScannerGlobals where
  scannerCls : Option ScannerCls
  analyze_fn : Option PyAttr
  loaded : Bool

/-- The globals at process start: `None`, `None`, `False`. -/
def init_globals : ScannerGlobals :=
  { scannerCls := none, analyze_fn := none, loaded := false }

/-- `_load_scanner_once` (main.py lines 52-59) as a state transformer:
if `_loaded` is set, return at once; otherwise import the first candidate
module.  On import failure the exception propagates and, crucially, none
of the globals is mutated (the assignments on lines 57-59 are only reached
after a successful import), so the caller keeps the old state.  On success
all three globals are set. -/
def load_scanner_once (env : ImportEnv) (s : ScannerGlobals) : Except String ScannerGlobals :=
  if s.loaded then .ok s
  else
    match first_import env scanner_module_names with
    | .error e => .error e
    | .ok mod =>
        .ok { scannerCls := mod.SusScanner
              analyze_fn := py_or_attr mod.analyze_user mod.analyze_player
              loaded := true }

/-- The ways the scan handler can terminate abnormally: a raised
`HTTPException(status_code, detail)`, or an exception escaping the handler
uncaught (only `_to_json` runs outside the `try` blocks). -/
inductive ScanError where
  | http (status_code : Nat) (detail : String)
  | uncaught (message : String)

/-- `return _to_json(metrics)` (main.py lines 90 and 104): the call sits
outside the `try` blocks, so an exception from `_to_json` escapes the
handler uncaught. -/
def return_to_json (metrics : PyVal) : Except ScanError PyVal :=
  match to_json metrics with
  | .ok v => .ok v
  | .error e => .error (.uncaught e)

/-- The function-style branch (main.py lines 85-90): call the stored
attribute inside `try`, wrapping any exception as
`HTTPException(500, f"analyze function failed: ...")`, then normalize. -/
def analyze_call_result (r : Except String PyVal) : Except ScanError PyVal :=
  match r with
  | .error e => .error (.http 500 (("analyze function failed: ") ++ e))
  | .ok metrics => return_to_json metrics

/-- The body of the class-style `try` block (main.py lines 95-101):
construct with `lookback_months=3`; call `analyze_user` if the instance
has it, else `analyze_player`, else raise
`HTTPException(500, "SusScanner lacks analyze_user/analyze_player")`
(whose `str()` is its detail).  Every raise inside this block is an
`Except.error` carrying the exception text. -/
def class_invoke (cls : ScannerCls) (username : String) : Except String PyVal :=
  match cls.construct 3 with
  | .error e => .error e
  | .ok scanner =>
      match scanner.analyze_user with
      | some m => m username
      | none =>
          match scanner.analyze_player with
          | some m => m username
          | none => .error ("SusScanner lacks analyze_user/analyze_player")

/-- The class-style branch's `except` clause and normalization
(main.py lines 102-104): any exception from the `try` block — including
the inner `HTTPException`, since `HTTPException` derives from `Exception`
— is re-wrapped as `HTTPException(500, f"scanner failed: ...")`. -/
def scanner_call_result (r : Except String PyVal) : Except ScanError PyVal :=
  match r with
  | .error e => .error (.http 500 (("scanner failed: ") ++ e))
  | .ok metrics => return_to_json metrics

/-- `(req.username or "").strip()` (main.py line 75): a missing/`None`
username becomes the empty string; a non-empty string passes through
(`"" or ""` is `""`, so this equals `getD` then trim). -/
def normalize_username (reqUsername : Option String) : String :=
  py_strip (reqUsername.getD (""))

/-- The detail of the no-entrypoints `HTTPException` (main.py lines 106-111). -/
def no_entrypoints_detail : String :=
  ("scanner.py loaded but no entrypoints found. Define class SusScanner (with analyze_user/analyze_player) or export analyze_user(name)/analyze_player(name).")

/-- The `/scan` handler function (main.py lines 73-111) as a state-passing
function from the import environment, the current globals and the request
username to the response (or raised error) and the globals afterwards:
reject an empty trimmed username with 400 before anything else; run
`_load_scanner_once`, mapping its exception to a 500 and leaving the
globals unchanged; then prefer the function-style entrypoint, falling
back to the class-style one, and finally the no-entrypoints 500.
The `Option String` argument is the value of `req.username` as the
handler's own defensive guard `(req.username or "")` can observe it; in
the deployed program a missing or null field never reaches this function,
because the framework validates the required field first — see
`scan_endpoint` for the operation as a client observes it. -/
def scan (env : ImportEnv) (s : ScannerGlobals) (reqUsername : Option String) :
    Except ScanError PyVal × ScannerGlobals :=
  if normalize_username reqUsername = ("") then
    (.error (.http 400 ("username is required")), s)
  else
    match load_scanner_once env s with
    | .error e => (.error (.http 500 (("failed to import scanner module: ") ++ e)), s)
    | .ok s1 =>
        match s1.analyze_fn with
        | some fnAttr => (analyze_call_result (call_attr fnAttr (normalize_username reqUsername)), s1)
        | none =>
            match s1.scannerCls with
            | some cls => (scanner_call_result (class_invoke cls (normalize_username reqUsername)), s1)
            | none => (.error (.http 500 no_entrypoints_detail), s1)

/-- The `username` field of the request body as the validation layer sees
it: absent, JSON null, or a string (any other JSON type is rejected the
same way as null). -/
inductive UsernameField where
  | missing
  | nullv
  | str (s : String)

/-- Modelled from the framework contract of `ScanRequest` (main.py lines
61-62): the required pydantic field `username: str` makes FastAPI
validate the request body before the handler runs — this validation code
lives outside this repository's source.  A request with a missing
`username` is rejected with a 422 validation response (its body is a
structured validation error; we shorten it to the message text), and so
is a null or non-string value; only a present string reaches the `scan`
handler.  This is the `/scan` operation as a client observes it. -/
def scan_endpoint (env : ImportEnv) (s : ScannerGlobals) (body : UsernameField) :
    Except ScanError PyVal × ScannerGlobals :=
  match body with
  | .missing => (.error (.http 422 ("Field required")), s)
  | .nullv => (.error (.http 422 ("Input should be a valid string")), s)
  | .str u => scan env s (some u)

/-- The hardcoded default origin list (main.py lines 10-14). -/
def DEFAULT_ORIGINS : List String :=
  [("https://chessdev-hub.github.io"),
   ("https://chessdev-hub.github.io/SusScanner1.50"),
   ("http://localhost:5173"), ("http://127.0.0.1:5173")]

/-- The comprehension on main.py line 15: split the environment value on
commas, trim each piece, keep the non-empty ones (Python string
truthiness). -/
def parse_origins (origins_env : String) : List String :=
  ((split_commas origins_env).map py_strip).filter (fun o => o ≠ (""))

/-- `allow_origins` (main.py lines 9 and 15): `os.getenv("CORS_ORIGINS", "")`
then the comprehension, with the empty list falling back to
`DEFAULT_ORIGINS` (Python `or` on a list). -/
def allow_origins (cors_env : Option String) : List String :=
  if (parse_origins (cors_env.getD (""))).isEmpty then DEFAULT_ORIGINS
  else parse_origins (cors_env.getD (""))

/-- An import environment where every candidate module fails to load,
with the exception text `ModuleNotFoundError` would carry. -/
def env_all_fail : ImportEnv := fun n => .error (("No module named ") ++ n)

/-- A demo function-style entrypoint used in concrete runs. -/
def demo_fn : String → Except String PyVal :=
  fun u => .ok (.dict [(("user"), .prim u)])

/-- A demo scanner module exporting only `analyze_user`. -/
def demo_module : PyModule :=
  { SusScanner := none, analyze_user := some (.callable demo_fn), analyze_player := none }

/-- An import environment where the bare name `scanner` loads
`demo_module` and the namespaced candidates fail. -/
def env_scanner_ok : ImportEnv :=
  fun n => if n = ("scanner") then .ok demo_module else .error (("No module named ") ++ n)

/-- The shapes on which `_to_json` is self-contained: everything except an
object whose `model_dump` either raises or returns a non-mapping. -/
def benign_model_dump : PyVal → Bool
  | .obj (some (.ok (.dict _))) _ _ => true
  | .obj (some _) _ _ => false
  | _ => true

/-- A demo method playing the role of `analyze_user` on an instance. -/
def demo_user_fn : String → Except String PyVal :=
  fun u => .ok (.dict [(("via"), .prim ("user")), (("u"), .prim u)])

/-- A demo method playing the role of `analyze_player` on an instance. -/
def demo_player_fn : String → Except String PyVal :=
  fun u => .ok (.dict [(("via"), .prim ("player")), (("u"), .prim u)])

/-- A demo instance exposing both accepted method names. -/
def demo_instance_both : ScannerInstance :=
  { analyze_user := some demo_user_fn, analyze_player := some demo_player_fn }

/-- A demo class whose construction succeeds with `demo_instance_both`. -/
def demo_cls_both : ScannerCls := { construct := fun _ => .ok demo_instance_both }

/-- A demo instance exposing neither accepted method name. -/
def demo_instance_none : ScannerInstance :=
  { analyze_user := none, analyze_player := none }

/-- A demo class whose construction succeeds with `demo_instance_none`. -/
def demo_cls_none : ScannerCls := { construct := fun _ => .ok demo_instance_none }

/-- Globals after a resolution that found both a function-style and a
class-style entrypoint. -/
def globals_with_both : ScannerGlobals :=
  { scannerCls := some demo_cls_both, analyze_fn := some (.callable demo_fn), loaded := true }

/-- Globals after a resolution that found only the class-style entrypoint,
whose instances expose both method names. -/
def globals_class_both : ScannerGlobals :=
  { scannerCls := some demo_cls_both, analyze_fn := none, loaded := true }

/-- Globals after a resolution that found only the class-style entrypoint,
whose instances expose neither method name. -/
def globals_class_none : ScannerGlobals :=
  { scannerCls := some demo_cls_none, analyze_fn := none, loaded := true }

/-- A demo scanner module exporting both accepted function names. -/
def demo_module_both : PyModule :=
  { SusScanner := none
    analyze_user := some (.callable demo_user_fn)
    analyze_player := some (.callable demo_player_fn) }

/-- An import environment where the bare name `scanner` loads
`demo_module_both` and the namespaced candidates fail. -/
def env_scanner_both : ImportEnv :=
  fun n => if n = ("scanner") then .ok demo_module_both else .error (("No module named ") ++ n)

/-- Once `_loaded` is set, `_load_scanner_once` returns immediately and
no module load is attempted: the result is independent of the
environment. -/
theorem load_of_loaded (env : ImportEnv) (s : ScannerGlobals) (h : s.loaded = true) :
    load_scanner_once env s = .ok s := by
  unfold load_scanner_once
  rw [h]
  rfl

/-- Counterexample to claim C2: a scan request with a missing `username`
field does not yield the 400 "username is required" response the claim
asserts.  `ScanRequest` declares the required pydantic field
`username: str` (main.py lines 61-62), so the framework rejects the
request with a 422 validation error before the handler runs; the
handler's 400 is reachable only for a present string value. -/
theorem scan_missing_field_rejected_by_validation :
    scan_endpoint env_all_fail init_globals UsernameField.missing =
      (.error (.http 422 ("Field required")), init_globals) ∧
    scan_endpoint env_all_fail init_globals UsernameField.missing ≠
      (.error (.http 400 ("username is required")), init_globals) := by
  refine ⟨rfl, ?_⟩
  simp [scan_endpoint]

/-- Claim C2 as amended: a scan request whose `username` field is present
as a string that trims to empty (including all-whitespace) returns the
handler's 400 error with detail `username is required`; a request with a
missing or null `username` field never reaches the handler — the
framework's validation of the required field rejects it with a 422
validation error.  In every case the globals are returned unchanged and
the result does not depend on the import environment, so module
resolution is not attempted. -/
theorem scan_endpoint_empty_username (env : ImportEnv) (s : ScannerGlobals)
    (u : String) (h : py_strip u = ("")) :
    scan_endpoint env s (.str u) = (.error (.http 400 ("username is required")), s) ∧
    scan_endpoint env s UsernameField.missing =
      (.error (.http 422 ("Field required")), s) ∧
    scan_endpoint env s UsernameField.nullv =
      (.error (.http 422 ("Input should be a valid string")), s) := by
  refine ⟨?_, rfl, rfl⟩
  show scan env s (some u) = _
  unfold scan
  rw [show normalize_username (some u) = py_strip u from rfl, h]
  rfl

/-- Concrete run of `scan_endpoint_empty_username` on an all-whitespace
username. -/
theorem scan_endpoint_empty_username_witness :
    py_strip ("   ") = ("") ∧
    scan_endpoint env_all_fail init_globals (UsernameField.str ("   ")) =
      (.error (.http 400 ("username is required")), init_globals) :=
  ⟨by decide,
   (scan_endpoint_empty_username env_all_fail init_globals ("   ") (by decide)).1⟩

/-- Claim C4: `_to_json` prefers, in order: a `dict` unchanged; the output
of `model_dump` when the attribute exists (whatever else the object has);
the non-underscore entries of `vars(obj)`; and finally the one-key mapping
with the textual representation. -/
theorem to_json_preference_order :
    (∀ es, to_json (.dict es) = .ok (.dict es)) ∧
    (∀ dd t v, to_json (.obj (some (.ok v)) dd t) = .ok v) ∧
    (∀ attrs t, to_json (.obj none (some attrs) t) =
        .ok (.dict (attrs.filter (fun kv => !(starts_underscore kv.1))))) ∧
    (∀ t, to_json (.obj none none t) = .ok (.dict [(("result"), .prim t)]) ∧
          to_json (.prim t) = .ok (.dict [(("result"), .prim t)])) :=
  ⟨fun _ => rfl, fun _ _ _ => rfl, fun _ _ => rfl, fun _ => ⟨rfl, rfl⟩⟩

/-- Counterexample to claim C5: a result object whose `model_dump` method
raises makes `_to_json` raise, because the call on main.py line 68 is
unguarded — so `_to_json` is not total over every shape the external
capability might return. -/
theorem to_json_throws_on_raising_model_dump :
    to_json (.obj (some (.error ("boom"))) none ("x")) = .error ("boom") := rfl

/-- Claim C5 as amended: `_to_json` returns a mapping and never throws for
every value except an object with a misbehaving `model_dump`: when that
method raises, the exception propagates, and when it returns a non-mapping
the non-mapping is passed through.  On all shapes `_to_json` handles
itself — mappings, attribute bags, bare values, and objects whose
`model_dump` returns a mapping — it returns a mapping. -/
theorem to_json_total_when_model_dump_benign :
    ∀ v, benign_model_dump v = true → ∃ es, to_json v = .ok (.dict es) := by
  intro v h
  match v with
  | .prim _ => exact ⟨_, rfl⟩
  | .dict es => exact ⟨es, rfl⟩
  | .obj (some (.ok (.dict es))) _ _ => exact ⟨es, rfl⟩
  | .obj (some (.ok (.prim _))) _ _ => simp [benign_model_dump] at h
  | .obj (some (.ok (.obj _ _ _))) _ _ => simp [benign_model_dump] at h
  | .obj (some (.error _)) _ _ => simp [benign_model_dump] at h
  | .obj none (some _) _ => exact ⟨_, rfl⟩
  | .obj none none _ => exact ⟨_, rfl⟩

/-- Concrete run of `to_json_total_when_model_dump_benign` on a bare
value. -/
theorem to_json_total_when_model_dump_benign_witness :
    benign_model_dump (.prim ("5")) = true ∧
    ∃ es, to_json (.prim ("5")) = .ok (.dict es) :=
  ⟨rfl, to_json_total_when_model_dump_benign (.prim ("5")) rfl⟩

/-- Claim C3: with a non-empty trimmed username, when resolution produced
both a function-style and a class-style entrypoint, the function-style one
is invoked with the trimmed username; the right-hand side does not mention
the class (which is universally quantified), so the class-style entrypoint
is never constructed or called. -/
theorem scan_prefers_function_entrypoint (env : ImportEnv) (s : ScannerGlobals)
    (f : String → Except String PyVal) (cls : ScannerCls) (u : String)
    (hl : s.loaded = true) (hfn : s.analyze_fn = some (.callable f))
    (hcls : s.scannerCls = some cls) (hu : py_strip u ≠ ("")) :
    scan env s (some u) = (analyze_call_result (f (py_strip u)), s) := by
  simp [scan, normalize_username, load_of_loaded env s hl, hfn, hu, call_attr]

/-- Concrete run of `scan_prefers_function_entrypoint` on globals holding
both entrypoints. -/
theorem scan_prefers_function_entrypoint_witness :
    globals_with_both.loaded = true ∧
    globals_with_both.analyze_fn = some (.callable demo_fn) ∧
    globals_with_both.scannerCls = some demo_cls_both ∧
    py_strip ("magnus") ≠ ("") ∧
    scan env_all_fail globals_with_both (some ("magnus")) =
      (analyze_call_result (demo_fn (py_strip ("magnus"))), globals_with_both) :=
  ⟨rfl, rfl, rfl, by decide,
   scan_prefers_function_entrypoint env_all_fail globals_with_both demo_fn demo_cls_both
     ("magnus") rfl rfl rfl (by decide)⟩

/-- Claim C6: with only a class-style entrypoint resolved, the handler
constructs the instance with `lookback_months=3` (the hypothesis on
`construct 3`) and, when the instance exposes both accepted method names,
calls `analyze_user`; the right-hand side does not mention the
`analyze_player` method (universally quantified), so it is never called. -/
theorem scan_class_calls_analyze_user (env : ImportEnv) (s : ScannerGlobals)
    (cls : ScannerCls) (inst : ScannerInstance)
    (fu fp : String → Except String PyVal) (u : String)
    (hl : s.loaded = true) (hfn : s.analyze_fn = none) (hcls : s.scannerCls = some cls)
    (hc : cls.construct 3 = .ok inst) (hau : inst.analyze_user = some fu)
    (hap : inst.analyze_player = some fp) (hu : py_strip u ≠ ("")) :
    scan env s (some u) = (scanner_call_result (fu (py_strip u)), s) := by
  simp [scan, normalize_username, load_of_loaded env s hl, hfn, hcls, hu,
        class_invoke, hc, hau]

/-- Concrete run of `scan_class_calls_analyze_user` on an instance with
both method names. -/
theorem scan_class_calls_analyze_user_witness :
    globals_class_both.loaded = true ∧
    globals_class_both.analyze_fn = none ∧
    globals_class_both.scannerCls = some demo_cls_both ∧
    demo_cls_both.construct 3 = .ok demo_instance_both ∧
    demo_instance_both.analyze_user = some demo_user_fn ∧
    demo_instance_both.analyze_player = some demo_player_fn ∧
    py_strip ("hikaru") ≠ ("") ∧
    scan env_all_fail globals_class_both (some ("hikaru")) =
      (scanner_call_result (demo_user_fn (py_strip ("hikaru"))), globals_class_both) :=
  ⟨rfl, rfl, rfl, rfl, rfl, rfl, by decide,
   scan_class_calls_analyze_user env_all_fail globals_class_both demo_cls_both
     demo_instance_both demo_user_fn demo_player_fn ("hikaru") rfl rfl rfl rfl rfl rfl
     (by decide)⟩

/-- Claim C10: when the constructed instance exposes neither method name,
the inner `HTTPException(500, "SusScanner lacks analyze_user/analyze_player")`
is raised inside the `try` block, caught by `except Exception` (which
`HTTPException` derives from), and re-wrapped, so the surfaced detail is
the invocation-error message wrapping the missing-methods text rather than
a distinct missing-entrypoint error. -/
theorem scan_missing_methods_wrapped (env : ImportEnv) (s : ScannerGlobals)
    (cls : ScannerCls) (inst : ScannerInstance) (u : String)
    (hl : s.loaded = true) (hfn : s.analyze_fn = none) (hcls : s.scannerCls = some cls)
    (hc : cls.construct 3 = .ok inst) (hau : inst.analyze_user = none)
    (hap : inst.analyze_player = none) (hu : py_strip u ≠ ("")) :
    scan env s (some u) =
      (.error (.http 500 (("scanner failed: ") ++ ("SusScanner lacks analyze_user/analyze_player"))), s) := by
  simp [scan, normalize_username, load_of_loaded env s hl, hfn, hcls, hu,
        class_invoke, hc, hau, hap, scanner_call_result]

/-- Concrete run of `scan_missing_methods_wrapped` on an instance with
neither method name. -/
theorem scan_missing_methods_wrapped_witness :
    globals_class_none.loaded = true ∧
    globals_class_none.analyze_fn = none ∧
    globals_class_none.scannerCls = some demo_cls_none ∧
    demo_cls_none.construct 3 = .ok demo_instance_none ∧
    demo_instance_none.analyze_user = none ∧
    demo_instance_none.analyze_player = none ∧
    py_strip ("magnus") ≠ ("") ∧
    scan env_all_fail globals_class_none (some ("magnus")) =
      (.error (.http 500 (("scanner failed: ") ++ ("SusScanner lacks analyze_user/analyze_player"))), globals_class_none) :=
  ⟨rfl, rfl, rfl, rfl, rfl, rfl, by decide,
   scan_missing_methods_wrapped env_all_fail globals_class_none demo_cls_none
     demo_instance_none ("magnus") rfl rfl rfl rfl rfl rfl (by decide)⟩

/-- Counterexample to claim C1: `_load_scanner_once` sets `_loaded = True`
only after a successful import (main.py line 59 is unreachable when line 56
raises), so a resolution failure is not cached.  The first request under an
environment where every candidate fails returns a 500 and leaves the
globals exactly as they were (`init_globals`, with `loaded` still false);
feeding that very state to a second request under an environment where the
module has meanwhile become importable succeeds — the second request
re-attempted the module load instead of reusing a cached failure outcome. -/
theorem scan_reattempts_resolution_after_failure :
    scan env_all_fail init_globals (some ("magnus")) =
      (.error (.http 500 ("failed to import scanner module: No module named api.scanner")),
       init_globals) ∧
    scan env_scanner_ok init_globals (some ("magnus")) =
      (.ok (.dict [(("user"), .prim ("magnus"))]),
       { scannerCls := none, analyze_fn := some (.callable demo_fn), loaded := true }) :=
  ⟨rfl, rfl⟩

/-- Claim C1 as amended: resolution is cached only on success.  Once the
loaded flag is set, `_load_scanner_once` returns the cached state for any
environment and never re-attempts a load; a resolution failure leaves the
globals unchanged and unloaded (second conjunct: the failing request
returns `init_globals` itself), so the next scan request attempts the
module load again and can succeed (third conjunct). -/
theorem resolution_cached_only_on_success :
    (∀ env s, s.loaded = true → load_scanner_once env s = .ok s) ∧
    scan env_all_fail init_globals (some ("magnus")) =
      (.error (.http 500 ("failed to import scanner module: No module named api.scanner")),
       init_globals) ∧
    (scan env_scanner_ok init_globals (some ("magnus"))).2.loaded = true :=
  ⟨fun env s h => load_of_loaded env s h, rfl, rfl⟩

/-- Concrete run of the cached-success half of
`resolution_cached_only_on_success`: with the flag set, the load is a
no-op even under an environment where every import fails. -/
theorem resolution_cached_only_on_success_witness :
    ({ scannerCls := none, analyze_fn := none, loaded := true } : ScannerGlobals).loaded = true ∧
    load_scanner_once env_all_fail { scannerCls := none, analyze_fn := none, loaded := true } =
      .ok { scannerCls := none, analyze_fn := none, loaded := true } :=
  ⟨rfl, resolution_cached_only_on_success.1 env_all_fail
    { scannerCls := none, analyze_fn := none, loaded := true } rfl⟩

/-- Claim C7: the candidate list is `scanner`, `services.scanner`,
`api.scanner` in that order; the first candidate that loads wins (the
conclusions do not constrain the environment on the later names, so they
are not tried); when every candidate fails the last failure is surfaced,
and the handler wraps it in a 500 whose detail appends the underlying
failure text. -/
theorem import_order_and_error_surfacing :
    (scanner_module_names = [("scanner"), ("services.scanner"), ("api.scanner")]) ∧
    (∀ env m, env ("scanner") = .ok m →
        first_import env scanner_module_names = .ok m) ∧
    (∀ env e m, env ("scanner") = .error e → env ("services.scanner") = .ok m →
        first_import env scanner_module_names = .ok m) ∧
    (∀ env e1 e2 e3, env ("scanner") = .error e1 → env ("services.scanner") = .error e2 →
        env ("api.scanner") = .error e3 →
        first_import env scanner_module_names = .error e3) ∧
    (∀ env e1 e2 e3 s u, s.loaded = false → env ("scanner") = .error e1 →
        env ("services.scanner") = .error e2 → env ("api.scanner") = .error e3 →
        py_strip u ≠ ("") →
        scan env s (some u) =
          (.error (.http 500 (("failed to import scanner module: ") ++ e3)), s)) := by
  refine ⟨rfl, ?_, ?_, ?_, ?_⟩
  · intro env m h
    simp [first_import, scanner_module_names, first_import_aux, h]
  · intro env e m h1 h2
    simp [first_import, scanner_module_names, first_import_aux, h1, h2]
  · intro env e1 e2 e3 h1 h2 h3
    simp [first_import, scanner_module_names, first_import_aux, h1, h2, h3]
  · intro env e1 e2 e3 s u hl h1 h2 h3 hu
    simp [scan, normalize_username, load_scanner_once, hl, hu, first_import,
          scanner_module_names, first_import_aux, h1, h2, h3]

/-- Concrete run of the all-candidates-fail half of
`import_order_and_error_surfacing`. -/
theorem import_order_and_error_surfacing_witness :
    init_globals.loaded = false ∧
    env_all_fail ("scanner") = .error ("No module named scanner") ∧
    env_all_fail ("services.scanner") = .error ("No module named services.scanner") ∧
    env_all_fail ("api.scanner") = .error ("No module named api.scanner") ∧
    py_strip ("magnus") ≠ ("") ∧
    scan env_all_fail init_globals (some ("magnus")) =
      (.error (.http 500 (("failed to import scanner module: ") ++ ("No module named api.scanner"))),
       init_globals) :=
  ⟨rfl, rfl, rfl, rfl, by decide,
   import_order_and_error_surfacing.2.2.2.2 env_all_fail
     ("No module named scanner") ("No module named services.scanner")
     ("No module named api.scanner") init_globals ("magnus") rfl rfl rfl rfl (by decide)⟩

/-- Claim C9: `_load_scanner_once` stores
`getattr(mod, "analyze_user", None) or getattr(mod, "analyze_player", None)`,
so the loaded module's `analyze_user` attribute is recorded whenever it
exists and is truthy — even when `analyze_player` is also present — and
the `analyze_player` attribute value is recorded only when `analyze_user`
is absent or falsy. -/
theorem load_records_analyze_user_first (env : ImportEnv) (s : ScannerGlobals)
    (mod : PyModule) (hl : s.loaded = false) (he : env ("scanner") = .ok mod) :
    (∀ x, mod.analyze_user = some x → truthy_attr x = true →
        load_scanner_once env s =
          .ok { scannerCls := mod.SusScanner, analyze_fn := some x, loaded := true }) ∧
    (mod.analyze_user = none →
        load_scanner_once env s =
          .ok { scannerCls := mod.SusScanner, analyze_fn := mod.analyze_player, loaded := true }) ∧
    (∀ x, mod.analyze_user = some x → truthy_attr x = false →
        load_scanner_once env s =
          .ok { scannerCls := mod.SusScanner, analyze_fn := mod.analyze_player, loaded := true }) := by
  refine ⟨?_, ?_, ?_⟩
  · intro x hx ht
    simp [load_scanner_once, hl, first_import, scanner_module_names, first_import_aux,
          he, py_or_attr, hx, ht]
  · intro hx
    simp [load_scanner_once, hl, first_import, scanner_module_names, first_import_aux,
          he, py_or_attr, hx]
  · intro x hx ht
    simp [load_scanner_once, hl, first_import, scanner_module_names, first_import_aux,
          he, py_or_attr, hx, ht]

/-- Concrete run of `load_records_analyze_user_first` on a module
exporting both accepted function names: `analyze_user` is recorded. -/
theorem load_records_analyze_user_first_witness :
    init_globals.loaded = false ∧
    env_scanner_both ("scanner") = .ok demo_module_both ∧
    demo_module_both.analyze_user = some (.callable demo_user_fn) ∧
    truthy_attr (.callable demo_user_fn) = true ∧
    load_scanner_once env_scanner_both init_globals =
      .ok { scannerCls := none, analyze_fn := some (.callable demo_user_fn), loaded := true } :=
  ⟨rfl, rfl, rfl, rfl,
   (load_records_analyze_user_first env_scanner_both init_globals demo_module_both rfl rfl).1
     (.callable demo_user_fn) rfl rfl⟩

/-- Claim C8: the allowed-origins list is computed from the `CORS_ORIGINS`
value by splitting on commas and trimming each entry; when the variable is
unset, or no entry survives trimming (empty string, or only whitespace and
commas), the built-in `DEFAULT_ORIGINS` list is used; otherwise the
trimmed non-empty entries are used. -/
theorem cors_allow_origins_spec :
    (allow_origins none = DEFAULT_ORIGINS) ∧
    (∀ s, (∀ o ∈ split_commas s, py_strip o = ("")) →
        allow_origins (some s) = DEFAULT_ORIGINS) ∧
    (∀ s, parse_origins s ≠ [] → allow_origins (some s) = parse_origins s) := by
  refine ⟨rfl, ?_, ?_⟩
  · intro s h
    have hp : parse_origins s = [] := by
      unfold parse_origins
      rw [List.filter_eq_nil_iff]
      intro a ha
      rw [List.mem_map] at ha
      obtain ⟨o, ho, rfl⟩ := ha
      simp [h o ho]
    unfold allow_origins
    simp [hp]
  · intro s hne
    unfold allow_origins
    simp [List.isEmpty_iff, hne]

/-- Concrete runs of `cors_allow_origins_spec`: a value of only whitespace
and commas falls back to the defaults, and a real value is split and
trimmed. -/
theorem cors_allow_origins_spec_witness :
    (∀ o ∈ split_commas ("  , ,,"), py_strip o = ("")) ∧
    allow_origins (some ("  , ,,")) = DEFAULT_ORIGINS ∧
    parse_origins (" https://a.example , http://b.example ") ≠ [] ∧
    allow_origins (some (" https://a.example , http://b.example ")) =
      parse_origins (" https://a.example , http://b.example ") :=
  ⟨by decide, cors_allow_origins_spec.2.1 ("  , ,,") (by decide), by decide,
   cors_allow_origins_spec.2.2 (" https://a.example , http://b.example ") (by decide)⟩
